import Mathlib

/-!
# Verification of the RHash Windows utility layer (`win_utils.c`)

A shallow embedding of the filesystem-name compatibility layer in
`src/win_utils.c`: codepage conversion (`c2w`, `wchar_to_cstr`), the error
translator (`convert_last_error_to_errno`), path composition (`make_pathw`),
exclusive file opening and probing (`win_fopen_ex`, `can_open_exclusive`)
and the directory iterator (`win_opendir`, `win_readdir`).

Narrow (multi-byte) strings are modelled as `List Nat` of byte values and
wide strings as `List Nat` of UTF-16 code units, both without the trailing
NUL terminator.  The native OS calls (`MultiByteToWideChar`,
`WideCharToMultiByte`, `_wfsopen`, `_wsopen`, `FindFirstFileW` /
`FindNextFileW`) are modelled by a record of pure oracle functions `OsEnv`;
the `GetLastError` value is threaded explicitly where the code reads it.
-/

namespace WinUtils

/-! ## Platform constants (from `windows.h`, `share.h`, `fcntl.h`, `errno.h`) -/

def CP_ACP : Nat := 0
def CP_OEMCP : Nat := 1
def CP_UTF8 : Nat := 65001

def SH_DENYWR : Nat := 32   -- _SH_DENYWR
def SH_DENYNO : Nat := 64   -- _SH_DENYNO
def O_RDONLY_BINARY : Nat := 32768  -- _O_RDONLY | _O_BINARY

def NO_ERROR : Nat := 0
def ERROR_FILE_NOT_FOUND : Nat := 2
def ERROR_PATH_NOT_FOUND : Nat := 3
def ERROR_TOO_MANY_OPEN_FILES : Nat := 4
def ERROR_ACCESS_DENIED : Nat := 5
def ERROR_INVALID_HANDLE : Nat := 6
def ERROR_NOT_ENOUGH_MEMORY : Nat := 8
def ERROR_INVALID_BLOCK : Nat := 9
def ERROR_INVALID_ACCESS : Nat := 12
def ERROR_INVALID_DATA : Nat := 13
def ERROR_INVALID_DRIVE : Nat := 15
def ERROR_WRITE_PROTECT : Nat := 19
def ERROR_SHARING_VIOLATION : Nat := 32
def ERROR_LOCK_VIOLATION : Nat := 33
def ERROR_SHARING_BUFFER_EXCEEDED : Nat := 36
def ERROR_BAD_NETPATH : Nat := 53
def ERROR_NETWORK_ACCESS_DENIED : Nat := 65
def ERROR_FAIL_I24 : Nat := 83
def ERROR_INVALID_PARAMETER : Nat := 87
def ERROR_DRIVE_LOCKED : Nat := 108
def ERROR_BROKEN_PIPE : Nat := 109
def ERROR_DISK_FULL : Nat := 112
def ERROR_SEEK_ON_DEVICE : Nat := 132
def ERROR_NOT_LOCKED : Nat := 158
def ERROR_BAD_PATHNAME : Nat := 161
def ERROR_LOCK_FAILED : Nat := 167
def ERROR_ALREADY_EXISTS : Nat := 183
def ERROR_FILENAME_EXCED_RANGE : Nat := 206
def ERROR_NESTING_NOT_ALLOWED : Nat := 215
def ERROR_NO_DATA : Nat := 232
def ERROR_NOT_ENOUGH_QUOTA : Nat := 1816

def ENOENT : Nat := 2
def EAGAIN : Nat := 11
def EBADF : Nat := 9
def ENOMEM : Nat := 12
def EACCES : Nat := 13
def EEXIST : Nat := 17
def EINVAL : Nat := 22
def EMFILE : Nat := 24
def ENOSPC : Nat := 28
def EPIPE : Nat := 32

/-! ## Data model -/

/-- The process-wide encoding mode selected by command line options:
exactly one of `OPT_UTF8`, `OPT_ANSI`, `OPT_OEM` is set in `opt.flags`
(asserted in `win_to_utf8`). -/
inductive EncodingMode where
  | utf8   -- OPT_UTF8
  | ansi   -- OPT_ANSI
  | oem    -- OPT_OEM
deriving DecidableEq, Repr

/-- One native directory record (`WIN32_FIND_DATAW`): the file name and the
attribute word from which the is-directory flag is derived. -/
structure FindData where
  cFileName : List Nat
  dwFileAttributes : Nat
deriving DecidableEq, Repr

def FILE_ATTRIBUTE_DIRECTORY : Nat := 16

/-- Oracle record modelling the native OS calls used by `win_utils.c` as
pure functions.  `mb2wc cp s` is `MultiByteToWideChar` (strict size query
plus conversion, collapsed into one result), `wc2mb cp w` is
`WideCharToMultiByte` returning the narrow bytes together with the
`lpUsedDefaultChar` flag of the conversion, `wfsopen` is `_wfsopen`
(success yields a file handle, failure yields the `errno` it sets),
`wsopen` is `_wsopen path oflag shflag`, and `findFirst` is
`FindFirstFileW`, which on success yields the first record together with
the stream of records later `FindNextFileW` calls will produce, and on
failure yields the `GetLastError` code it sets. -/
structure OsEnv where
  mb2wc : Nat → List Nat → Option (List Nat)
  wc2mb : Nat → List Nat → Option (List Nat × Bool)
  wfsopen : List Nat → List Nat → Nat → Except Nat Nat
  wsopen : List Nat → Nat → Nat → Option Nat
  findFirst : List Nat → Except Nat (FindData × List FindData)

/-! ## Codepage Converter (`c2w`, `wchar_to_cstr`) -/

/-- The codepage chosen by `c2w` for a given attempt number:
`is_utf = (try_no == (opt.flags & OPT_UTF8 ? 0 : 1))`, then
`CP_UTF8` if `is_utf`, else `CP_OEMCP` when `OPT_OEM` is set, else `CP_ACP`. -/
def codepageForAttempt (mode : EncodingMode) (try_no : Nat) : Nat :=
  let is_utf := try_no == (if mode = .utf8 then 0 else 1)
  if is_utf then CP_UTF8 else if mode = .oem then CP_OEMCP else CP_ACP

/-- The codepage implied by the command line options, used by
`wchar_to_cstr` when the `-1` sentinel is passed:
`opt.flags & OPT_UTF8 ? CP_UTF8 : (opt.flags & OPT_OEM) ? CP_OEMCP : CP_ACP`. -/
def defaultCodepage (mode : EncodingMode) : Nat :=
  if mode = .utf8 then CP_UTF8 else if mode = .oem then CP_OEMCP else CP_ACP

/-- `c2w(str, try_no)`: convert a narrow string to wide using the primary
(attempt 0) or secondary (attempt 1) codepage; `NULL` (here `none`) on
conversion failure. -/
def c2w (env : OsEnv) (mode : EncodingMode) (str : List Nat) (try_no : Nat) :
    Option (List Nat) :=
  env.mb2wc (codepageForAttempt mode try_no) str

/-- `wchar_to_cstr(wstr, codepage, failed)`: convert a wide string to narrow
using an explicit codepage, or the default one when `codepage = -1`.
Returns the converted string (or `none` on failure) together with the value
the code stores through the `failed` pointer when the caller supplied one
(`wantFailed = true` models a non-NULL `failed` pointer).
`lpUsedDefaultChar` is passed to the native call only when the caller wants
the flag and the codepage is not `CP_UTF8`. -/
def wchar_to_cstr (env : OsEnv) (mode : EncodingMode) (wstr : List Nat)
    (codepage : Int) (wantFailed : Bool) : Option (List Nat) × Bool :=
  let cp : Nat := if codepage = -1 then defaultCodepage mode else codepage.toNat
  let track : Bool := wantFailed && cp != CP_UTF8
  match env.wc2mb cp wstr with
  | none => (none, true)
  | some (buf, usedDef) => (some buf, track && usedDef)

/-- `w2c(wstr) = wchar_to_cstr(wstr, -1, NULL)`. -/
def w2c (env : OsEnv) (mode : EncodingMode) (wstr : List Nat) :
    Option (List Nat) :=
  (wchar_to_cstr env mode wstr (-1) false).1

theorem defaultCodepage_eq_attempt0 (mode : EncodingMode) :
    defaultCodepage mode = codepageForAttempt mode 0 := by
  cases mode <;> rfl

/-- **C1.** For every narrow string `s` representable without loss in the
active encoding mode — i.e. the native conversion pair at the mode's
primary codepage round-trips `s` without default-character substitution —
converting `s` to wide with attempt 0 (`c2w`) and back with the
`-1` "use default codepage" sentinel (`wchar_to_cstr`) reproduces `s`
exactly, and the substitution-occurred output flag is `false`. -/
theorem c2w_wchar_to_cstr_roundtrip (env : OsEnv) (mode : EncodingMode)
    (s w : List Nat)
    (h1 : env.mb2wc (defaultCodepage mode) s = some w)
    (h2 : env.wc2mb (defaultCodepage mode) w = some (s, false)) :
    c2w env mode s 0 = some w ∧
    wchar_to_cstr env mode w (-1) true = (some s, false) := by
  constructor
  · rw [c2w, ← defaultCodepage_eq_attempt0, h1]
  · simp [wchar_to_cstr, h2]

/-- Concrete environment for the round-trip witness: byte-identity
conversions at every codepage. -/
def idEnv : OsEnv where
  mb2wc := fun _ s => some s
  wc2mb := fun _ w => some (w, false)
  wfsopen := fun _ _ _ => .error 2
  wsopen := fun _ _ _ => none
  findFirst := fun _ => .error 2

theorem c2w_wchar_to_cstr_roundtrip_witness :
    c2w idEnv .ansi [104, 105] 0 = some [104, 105] ∧
    wchar_to_cstr idEnv .ansi [104, 105] (-1) true = (some [104, 105], false) :=
  c2w_wchar_to_cstr_roundtrip idEnv .ansi [104, 105] [104, 105] rfl rfl

/-! ## Path Composer (`make_pathw`) -/

/-- Modelled from the spec: `IS_PATH_SEPARATOR_W` and `SYS_PATH_SEPARATOR`
are defined in a header that is not part of the sources here; the spec's
Path Composer examples use `/` (code 47) as the path separator, so the
separator set is modelled as the single character `/`. -/
def sysPathSeparator : Nat := 47

/-- Modelled from the spec: the path-separator predicate over wide
characters, matching `sysPathSeparator`. -/
def isPathSepW (c : Nat) : Bool := c == sysPathSeparator

/-- `make_pathw(dir_path, dir_len, filename)`: if `dir_path` is `NULL`,
`dir_len` is set to 0 and the filename is copied as is; otherwise the
leading path separators are removed from `filename`, `dir_len == (size_t)-1`
(modelled by `none`) is replaced by `wcslen(dir_path)`, the first `dir_len`
characters of the directory are copied, a separator is appended when the
copied part does not already end in one, and the stripped filename follows. -/
def make_pathw (dir_path : Option (List Nat)) (dir_len : Option Nat)
    (filename : List Nat) : List Nat :=
  match dir_path with
  | none => filename
  | some d =>
    let fname := filename.dropWhile isPathSepW
    let dlen := dir_len.getD d.length
    let dirPart := d.take dlen
    if dlen > 0 then
      (if dirPart.getLast? = some sysPathSeparator then dirPart
       else dirPart ++ [sysPathSeparator]) ++ fname
    else fname

/-- **C5.** With a non-absent directory, `make_pathw` strips every leading
path separator from the filename and puts exactly one separator between the
directory part and the stripped filename (appending one only when the
directory does not already end in a separator); in particular
`make_pathw "/a/b" Auto "/c" = "/a/b/c"` and
`make_pathw "/a/b/" Auto "c" = "/a/b/c"`. -/
theorem make_pathw_separator_normalization :
    (∀ (d f : List Nat),
      make_pathw (some d) none f =
        (if d = [] then []
         else if d.getLast? = some sysPathSeparator then d
         else d ++ [sysPathSeparator]) ++ f.dropWhile isPathSepW) ∧
    make_pathw (some [47, 97, 47, 98]) none [47, 99] = [47, 97, 47, 98, 47, 99] ∧
    make_pathw (some [47, 97, 47, 98, 47]) none [99] = [47, 97, 47, 98, 47, 99] := by
  refine ⟨fun d f => ?_, by decide, by decide⟩
  simp only [make_pathw, Option.getD_none, List.take_length]
  rcases eq_or_ne d [] with rfl | hd
  · simp
  · rw [if_pos (by simpa [List.length_pos] using hd), if_neg hd]

/-- **C6 (counterexample).** The claim says that with an absent directory
the result is the filename with leading separators stripped; but the
stripping loop runs only in the non-NULL-directory branch, so
`make_pathw NULL Auto "/c"` keeps the leading separator. -/
theorem make_pathw_none_keeps_separators :
    make_pathw none none [47, 99] = [47, 99] ∧
    [47, 99] ≠ ([47, 99] : List Nat).dropWhile isPathSepW := by
  exact ⟨rfl, by decide⟩

/-- **C6 (amended).** When the directory argument is absent, `make_pathw`
returns exactly the filename, unchanged: leading path separators are *not*
stripped in this case (the stripping loop is inside the non-NULL-directory
branch). -/
theorem make_pathw_none_eq_filename (dir_len : Option Nat)
    (filename : List Nat) :
    make_pathw none dir_len filename = filename := rfl

/-! ## Error Translator (`convert_last_error_to_errno`) -/

/-- The range of error codes treated as access errors:
`MIN_EACCES_RANGE = ERROR_WRITE_PROTECT`,
`MAX_EACCES_RANGE = ERROR_SHARING_BUFFER_EXCEEDED`. -/
def MIN_EACCES_RANGE : Nat := ERROR_WRITE_PROTECT
def MAX_EACCES_RANGE : Nat := ERROR_SHARING_BUFFER_EXCEEDED

/-- `convert_last_error_to_errno()`: translate a `GetLastError()` value
(taken here as the explicit argument) to an errno-compatible code,
following the `switch` statement of the source, then the numeric-range
fallback. -/
def convert_last_error_to_errno (error_code : Nat) : Nat :=
  -- the `case` labels are written as their numeric values so that the
  -- arithmetic tactics can read them; the names are noted alongside
  if error_code = 0 then 0                                 -- NO_ERROR
  else if error_code = 2 ∨ error_code = 3 ∨                -- FILE/PATH_NOT_FOUND
      error_code = 15 ∨ error_code = 53 ∨                  -- INVALID_DRIVE, BAD_NETPATH
      error_code = 161 ∨ error_code = 206 then             -- BAD_PATHNAME, FILENAME_EXCED_RANGE
    ENOENT
  else if error_code = 4 then EMFILE                       -- TOO_MANY_OPEN_FILES
  else if error_code = 5 ∨ error_code = 32 then            -- ACCESS_DENIED, SHARING_VIOLATION
    EACCES
  else if error_code = 65 ∨ error_code = 83 ∨              -- NETWORK_ACCESS_DENIED, FAIL_I24
      error_code = 132 then EACCES                         -- SEEK_ON_DEVICE
  else if error_code = 33 ∨ error_code = 108 ∨             -- LOCK_VIOLATION, DRIVE_LOCKED
      error_code = 158 ∨ error_code = 167 then EACCES      -- NOT_LOCKED, LOCK_FAILED
  else if error_code = 6 then EBADF                        -- INVALID_HANDLE
  else if error_code = 8 ∨ error_code = 9 ∨                -- NOT_ENOUGH_MEMORY, INVALID_BLOCK
      error_code = 1816 then ENOMEM                        -- NOT_ENOUGH_QUOTA
  else if error_code = 12 ∨ error_code = 13 ∨              -- INVALID_ACCESS, INVALID_DATA
      error_code = 87 then EINVAL                          -- INVALID_PARAMETER
  else if error_code = 109 ∨ error_code = 232 then EPIPE   -- BROKEN_PIPE, NO_DATA
  else if error_code = 112 then ENOSPC                     -- DISK_FULL
  else if error_code = 183 then EEXIST                     -- ALREADY_EXISTS
  else if error_code = 215 then EAGAIN                     -- NESTING_NOT_ALLOWED
  else if 19 ≤ error_code ∧ error_code ≤ 36 then EACCES    -- MIN/MAX_EACCES_RANGE
  else EINVAL

/-- `set_errno_from_last_file_error()`: the errno value assigned from the
last native error. -/
def set_errno_from_last_file_error (lastError : Nat) : Nat :=
  convert_last_error_to_errno lastError

/-- The portable error taxonomy of the spec. -/
inductive PortableErrorCode where
  | notFound
  | accessDenied
  | tooManyOpenFiles
  | invalidHandle
  | outOfMemory
  | invalidArgument
  | brokenPipe
  | diskFull
  | alreadyExists
  | temporarilyUnavailable
deriving DecidableEq, Repr

/-- The portable reading of the errno values produced by the translator;
`none` for 0, which is not an error at all. -/
def portableOfErrno (e : Nat) : Option PortableErrorCode :=
  if e = ENOENT then some .notFound
  else if e = EACCES then some .accessDenied
  else if e = EMFILE then some .tooManyOpenFiles
  else if e = EBADF then some .invalidHandle
  else if e = ENOMEM then some .outOfMemory
  else if e = EINVAL then some .invalidArgument
  else if e = EPIPE then some .brokenPipe
  else if e = ENOSPC then some .diskFull
  else if e = EEXIST then some .alreadyExists
  else if e = EAGAIN then some .temporarilyUnavailable
  else none

/-- The error translation table exactly as the claim words it: the
not-found family to NotFound, too-many-handles to TooManyOpenFiles, the
access-denied/sharing-violation/lock family to AccessDenied, invalid-handle
to InvalidHandle, the out-of-memory family to OutOfMemory, the
invalid-parameter family to InvalidArgument, the broken-pipe family to
BrokenPipe, disk-full to DiskFull, already-exists to AlreadyExists,
nesting-not-allowed to TemporarilyUnavailable, any code in the contiguous
device/media-access range to AccessDenied, and every other code to
InvalidArgument. -/
def claimedErrorTable (e : Nat) : PortableErrorCode :=
  -- family members written numerically (names noted alongside); the
  -- access-denied/sharing-violation/lock family of the claim is written in
  -- the same three sub-groups as the translator's switch, all mapping to
  -- AccessDenied
  if e = 2 ∨ e = 3 ∨ e = 15 ∨ e = 53 ∨                     -- not-found family
      e = 161 ∨ e = 206 then .notFound
  else if e = 4 then .tooManyOpenFiles                     -- too-many-handles
  else if e = 5 ∨ e = 32 then .accessDenied                -- access-denied, sharing-violation
  else if e = 65 ∨ e = 83 ∨ e = 132 then .accessDenied     -- network/device access
  else if e = 33 ∨ e = 108 ∨ e = 158 ∨ e = 167 then        -- lock family
    .accessDenied
  else if e = 6 then .invalidHandle                        -- invalid-handle
  else if e = 8 ∨ e = 9 ∨ e = 1816 then .outOfMemory       -- out-of-memory family
  else if e = 12 ∨ e = 13 ∨ e = 87 then .invalidArgument   -- invalid-parameter family
  else if e = 109 ∨ e = 232 then .brokenPipe               -- broken-pipe family
  else if e = 112 then .diskFull                           -- disk-full
  else if e = 183 then .alreadyExists                      -- already-exists
  else if e = 215 then .temporarilyUnavailable             -- nesting-not-allowed
  else if 19 ≤ e ∧ e ≤ 36 then .accessDenied               -- device/media-access range
  else .invalidArgument

/-- **C4 (counterexample).** The claimed table maps every code outside the
named families to InvalidArgument, so at the native value 0 it demands
InvalidArgument; the code instead returns 0 (success, no portable error
at all). -/
theorem convert_last_error_zero_diverges :
    claimedErrorTable 0 = .invalidArgument ∧
    convert_last_error_to_errno 0 = 0 ∧
    portableOfErrno (convert_last_error_to_errno 0) = none := by
  refine ⟨by decide, rfl, by decide⟩

/-- **C4 (amended).** On every *nonzero* native error value the translator
is the claimed table: a pure function of its input mapping the not-found
family to NotFound, too-many-handles to TooManyOpenFiles, the
access-denied/sharing/lock family to AccessDenied, invalid-handle to
InvalidHandle, the out-of-memory family to OutOfMemory, the
invalid-parameter family to InvalidArgument, the broken-pipe family to
BrokenPipe, disk-full to DiskFull, already-exists to AlreadyExists,
nesting-not-allowed to TemporarilyUnavailable, the device/media-access
range to AccessDenied, and every other nonzero code to InvalidArgument;
the no-error value 0 translates to 0 (success), not to a portable error. -/
theorem convert_last_error_matches_claimed_table (e : Nat) (he : e ≠ 0) :
    portableOfErrno (convert_last_error_to_errno e) = some (claimedErrorTable e) := by
  unfold convert_last_error_to_errno claimedErrorTable
  rw [if_neg he]
  simp only [apply_ite portableOfErrno,
    apply_ite (Option.some (α := PortableErrorCode))]
  norm_num [portableOfErrno, ENOENT, EMFILE, EACCES, EBADF, ENOMEM, EINVAL,
    EPIPE, ENOSPC, EEXIST, EAGAIN]

theorem convert_last_error_matches_claimed_table_witness :
    (2 : Nat) ≠ 0 ∧
    portableOfErrno (convert_last_error_to_errno 2) = some (claimedErrorTable 2) :=
  ⟨by decide, convert_last_error_matches_claimed_table 2 (by decide)⟩

/-! ## Exclusive File Accessor (`win_fopen_ex`, `can_open_exclusive`) -/

/-- `utf8_to_wchar(str) = cstr_to_wchar(str, CP_UTF8)`. -/
def utf8_to_wchar (env : OsEnv) (str : List Nat) : Option (List Nat) :=
  env.mb2wc CP_UTF8 str

/-- `win_fopen_ex(path, mode, exclusive)`: converts `mode` once to wide via
UTF-8 (asserted non-NULL), then loops over codepage attempts 0 and 1:
converts the path (`continue` on conversion failure), calls `_wfsopen`
with `_SH_DENYWR` when exclusive else `_SH_DENYNO`, and breaks when the
open succeeded or failed with an errno other than `ENOENT`.  The result
pairs the final file handle (`none` models `NULL`) with the list of loop
iterations actually performed. -/
def win_fopen_ex (env : OsEnv) (mode : EncodingMode) (path fmode : List Nat)
    (exclusive : Bool) : Option Nat × List Nat :=
  match utf8_to_wchar env fmode with
  | none => (none, [])   -- assert(wmode != NULL) fires; unreachable under the assert
  | some wmode =>
    let share := if exclusive then SH_DENYWR else SH_DENYNO
    let attempt1 : Option Nat :=
      match c2w env mode path 1 with
      | none => none
      | some wpath1 => (env.wfsopen wpath1 wmode share).toOption
    match c2w env mode path 0 with
    | none => (attempt1, [0, 1])
    | some wpath0 =>
      match env.wfsopen wpath0 wmode share with
      | .ok fd => (some fd, [0])
      | .error e => if e = ENOENT then (attempt1, [0, 1]) else (none, [0])

/-- **C2.** Under the (asserted) success of the mode-string conversion,
`win_fopen_ex` performs a second iteration with codepage attempt 1 exactly
when attempt 0's path conversion returned `NULL` or the native open failed
with `ENOENT`; when attempt 0's open succeeded or failed with any other
errno, only iteration 0 is performed. -/
theorem win_fopen_ex_retry_policy (env : OsEnv) (mode : EncodingMode)
    (path fmode wmode : List Nat) (exclusive : Bool)
    (hm : utf8_to_wchar env fmode = some wmode) :
    ((win_fopen_ex env mode path fmode exclusive).2 = [0, 1] ↔
      (c2w env mode path 0 = none ∨
       ∃ wpath0, c2w env mode path 0 = some wpath0 ∧
         env.wfsopen wpath0 wmode
           (if exclusive then SH_DENYWR else SH_DENYNO) = .error ENOENT)) ∧
    (∀ wpath0 fd, c2w env mode path 0 = some wpath0 →
      env.wfsopen wpath0 wmode
        (if exclusive then SH_DENYWR else SH_DENYNO) = .ok fd →
      (win_fopen_ex env mode path fmode exclusive).2 = [0]) ∧
    (∀ wpath0 e, c2w env mode path 0 = some wpath0 →
      env.wfsopen wpath0 wmode
        (if exclusive then SH_DENYWR else SH_DENYNO) = .error e →
      e ≠ ENOENT →
      (win_fopen_ex env mode path fmode exclusive).2 = [0]) := by
  refine ⟨?_, ?_, ?_⟩
  · match hc : c2w env mode path 0 with
    | none =>
      have hK : (win_fopen_ex env mode path fmode exclusive).2 = [0, 1] := by
        simp [win_fopen_ex, hm, hc]
      rw [hK]
      exact iff_of_true rfl (Or.inl rfl)
    | some wpath0 =>
      match ho : env.wfsopen wpath0 wmode
          (if exclusive then SH_DENYWR else SH_DENYNO) with
      | .ok fd =>
        have hK : (win_fopen_ex env mode path fmode exclusive).2 = [0] := by
          simp [win_fopen_ex, hm, hc, ho]
        rw [hK]
        refine iff_of_false (by decide) ?_
        rintro (hnone | ⟨w, hw, hfd⟩)
        · cases hnone
        · injection hw with hw
          subst hw
          rw [ho] at hfd
          cases hfd
      | .error e =>
        by_cases hee : e = ENOENT
        · subst hee
          have hK : (win_fopen_ex env mode path fmode exclusive).2 = [0, 1] := by
            simp [win_fopen_ex, hm, hc, ho]
          rw [hK]
          exact iff_of_true rfl (Or.inr ⟨wpath0, rfl, ho⟩)
        · have hK : (win_fopen_ex env mode path fmode exclusive).2 = [0] := by
            simp [win_fopen_ex, hm, hc, ho, hee]
          rw [hK]
          refine iff_of_false (by decide) ?_
          rintro (hnone | ⟨w, hw, hfd⟩)
          · cases hnone
          · injection hw with hw
            subst hw
            rw [ho] at hfd
            injection hfd with hfd
            exact hee hfd
  · intro wpath0 fd hc ho
    simp [win_fopen_ex, hm, hc, ho]
  · intro wpath0 e hc ho hee
    simp [win_fopen_ex, hm, hc, ho, hee]

/-- Environment for the retry-policy witness: the path converts at
attempt 0 but the native open fails with `ENOENT`, forcing the second
iteration. -/
def enoentEnv : OsEnv where
  mb2wc := fun _ s => some s
  wc2mb := fun _ w => some (w, false)
  wfsopen := fun _ _ _ => .error 2
  wsopen := fun _ _ _ => none
  findFirst := fun _ => .error 2

theorem win_fopen_ex_retry_policy_witness :
    utf8_to_wchar enoentEnv [114] = some [114] ∧
    (win_fopen_ex enoentEnv .utf8 [112] [114] false).2 = [0, 1] := by
  have h := win_fopen_ex_retry_policy enoentEnv .utf8 [112] [114] [114] false rfl
  exact ⟨rfl, h.1.mpr (Or.inr ⟨[112], rfl, rfl⟩)⟩

/-- `can_open_exclusive` probe events: per attempt, a failed conversion, a
failed open, or an open that returned descriptor `fd` followed by its
`_close`. -/
inductive ProbeEvent where
  | convFail (attempt : Nat)
  | openFail (attempt : Nat)
  | opened (attempt fd : Nat)
  | closed (attempt fd : Nat)
deriving DecidableEq, Repr

/-- One iteration of the probe loop: convert the path with the given
attempt, open read-only/binary with `_SH_DENYWR` sharing, and on success
(`fd >= 0`) record the open and the immediate `_close`. -/
def probe_attempt (env : OsEnv) (mode : EncodingMode) (path : List Nat)
    (i : Nat) : Bool × List ProbeEvent :=
  match c2w env mode path i with
  | none => (false, [.convFail i])
  | some wpath =>
    match env.wsopen wpath O_RDONLY_BINARY SH_DENYWR with
    | some fd => (true, [.opened i fd, .closed i fd])
    | none => (false, [.openFail i])

/-- `can_open_exclusive(path)`: loop over attempts 0 and 1 while `res == 0`;
returns the final `res` together with the trace of probe events. -/
def can_open_exclusive (env : OsEnv) (mode : EncodingMode) (path : List Nat) :
    Bool × List ProbeEvent :=
  match probe_attempt env mode path 0 with
  | (true, t0) => (true, t0)
  | (false, t0) =>
    match probe_attempt env mode path 1 with
    | (r1, t1) => (r1, t0 ++ t1)

/-- Attempt `i` converts and opens successfully. -/
def attemptOpens (env : OsEnv) (mode : EncodingMode) (path : List Nat)
    (i : Nat) : Prop :=
  ∃ wpath fd, c2w env mode path i = some wpath ∧
    env.wsopen wpath O_RDONLY_BINARY SH_DENYWR = some fd

theorem attemptOpens_of_probe_true (env : OsEnv) (mode : EncodingMode)
    (path : List Nat) (i : Nat) (t : List ProbeEvent)
    (h : probe_attempt env mode path i = (true, t)) :
    attemptOpens env mode path i ∧
    ∃ fd, t = [.opened i fd, .closed i fd] := by
  unfold probe_attempt at h
  match hc : c2w env mode path i with
  | none => simp [hc] at h
  | some wpath =>
    simp only [hc] at h
    match ho : env.wsopen wpath O_RDONLY_BINARY SH_DENYWR with
    | none => simp [ho] at h
    | some fd =>
      simp only [ho] at h
      injection h with h1 h2
      exact ⟨⟨wpath, fd, hc, ho⟩, fd, h2.symm⟩

theorem not_attemptOpens_of_probe_false (env : OsEnv) (mode : EncodingMode)
    (path : List Nat) (i : Nat) (t : List ProbeEvent)
    (h : probe_attempt env mode path i = (false, t)) :
    ¬ attemptOpens env mode path i ∧
    (t = [.convFail i] ∨ t = [.openFail i]) := by
  unfold probe_attempt at h
  match hc : c2w env mode path i with
  | none =>
    simp only [hc] at h
    injection h with _ ht
    refine ⟨?_, Or.inl ht.symm⟩
    rintro ⟨w, fd, hw, _⟩
    rw [hc] at hw
    cases hw
  | some wpath =>
    simp only [hc] at h
    match ho : env.wsopen wpath O_RDONLY_BINARY SH_DENYWR with
    | some fd => simp [ho] at h
    | none =>
      simp only [ho] at h
      injection h with _ ht
      refine ⟨?_, Or.inr ht.symm⟩
      rintro ⟨w, fd, hw, hfd⟩
      rw [hc] at hw
      injection hw with hw
      subst hw
      rw [ho] at hfd
      cases hfd

/-- **C9.** `can_open_exclusive` returns 1 exactly when at least one of the
two codepage attempts converts and yields a successful native
read-only/deny-other-writers open; every probe descriptor it opens is
closed before returning (no lasting lock), and after a success at attempt 0
no attempt-1 event occurs at all. -/
theorem can_open_exclusive_spec (env : OsEnv) (mode : EncodingMode)
    (path : List Nat) :
    ((can_open_exclusive env mode path).1 = true ↔
      attemptOpens env mode path 0 ∨ attemptOpens env mode path 1) ∧
    (∀ i fd, ProbeEvent.opened i fd ∈ (can_open_exclusive env mode path).2 →
      ProbeEvent.closed i fd ∈ (can_open_exclusive env mode path).2) ∧
    (attemptOpens env mode path 0 →
      ∃ fd, (can_open_exclusive env mode path).2 =
        [.opened 0 fd, .closed 0 fd]) := by
  match h0 : probe_attempt env mode path 0 with
  | (true, t0) =>
    obtain ⟨ha0, fd0, ht0⟩ := attemptOpens_of_probe_true env mode path 0 t0 h0
    have hK : can_open_exclusive env mode path = (true, t0) := by
      unfold can_open_exclusive
      rw [h0]
    subst ht0
    rw [hK]
    refine ⟨iff_of_true rfl (Or.inl ha0), ?_, fun _ => ⟨fd0, rfl⟩⟩
    intro i fd hmem
    simp only [List.mem_cons, List.not_mem_nil, or_false] at hmem ⊢
    rcases hmem with h | h
    · injection h with h1 h2
      subst h1; subst h2
      exact Or.inr rfl
    · cases h
  | (false, t0) =>
    obtain ⟨hn0, ht0⟩ := not_attemptOpens_of_probe_false env mode path 0 t0 h0
    match h1 : probe_attempt env mode path 1 with
    | (true, t1) =>
      obtain ⟨ha1, fd1, ht1⟩ := attemptOpens_of_probe_true env mode path 1 t1 h1
      have hK : can_open_exclusive env mode path = (true, t0 ++ t1) := by
        unfold can_open_exclusive
        rw [h0, h1]
      rw [hK]
      subst ht1
      refine ⟨iff_of_true rfl (Or.inr ha1), ?_, fun h => absurd h hn0⟩
      intro i fd hmem
      rcases List.mem_append.mp hmem with h | h
      · rcases ht0 with rfl | rfl <;> simp at h
      · simp only [List.mem_cons, List.not_mem_nil, or_false] at h
        rcases h with h | h
        · injection h with h1 h2
          subst h1; subst h2
          exact List.mem_append_right _ (by simp)
        · cases h
    | (false, t1) =>
      obtain ⟨hn1, ht1⟩ := not_attemptOpens_of_probe_false env mode path 1 t1 h1
      have hK : can_open_exclusive env mode path = (false, t0 ++ t1) := by
        unfold can_open_exclusive
        rw [h0, h1]
      rw [hK]
      refine ⟨iff_of_false (by simp) ?_, ?_, fun h => absurd h hn0⟩
      · rintro (h | h)
        · exact hn0 h
        · exact hn1 h
      · intro i fd hmem
        rcases List.mem_append.mp hmem with h | h
        · rcases ht0 with rfl | rfl <;> simp at h
        · rcases ht1 with rfl | rfl <;> simp at h

/-- Environment for the probe witness: conversion succeeds and the native
read-only open yields descriptor 7. -/
def probeEnv : OsEnv where
  mb2wc := fun _ s => some s
  wc2mb := fun _ w => some (w, false)
  wfsopen := fun _ _ _ => .error 2
  wsopen := fun _ _ _ => some 7
  findFirst := fun _ => .error 2

theorem can_open_exclusive_spec_witness :
    attemptOpens probeEnv .utf8 [112] 0 ∧
    (can_open_exclusive probeEnv .utf8 [112]).1 = true := by
  have h := can_open_exclusive_spec probeEnv .utf8 [112]
  have ha : attemptOpens probeEnv .utf8 [112] 0 := ⟨[112], 7, rfl, rfl⟩
  exact ⟨ha, h.1.mpr (Or.inl ha)⟩

/-! ## Directory Iterator (`win_opendir`, `win_readdir`) -/

/-- The `WIN_DIR` iterator: the buffered `findFileData` record, the stream
of records remaining for `FindNextFileW`, the state
(`0` not started, `-1` ended, `> 0` number of consumed records) and the
narrow name buffer of the last produced entry. -/
structure WIN_DIR where
  findFileData : FindData
  pending : List FindData
  state : Int
  d_name : Option (List Nat)
deriving DecidableEq, Repr

/-- A produced directory entry (`struct win_dirent`): narrow name, raw wide
name, is-directory flag. -/
structure win_dirent where
  d_name : List Nat
  d_wname : List Nat
  d_isdir : Bool
deriving DecidableEq, Repr

/-- The zeroed `findFileData` left by `memset(d, 0, sizeof(WIN_DIR))` when
the iterator is built without a successful native call. -/
def zeroFindData : FindData := ⟨[], 0⟩

/-- The result of `win_opendir`: the returned iterator (`none` models a
`NULL` return), whether the attempt-1 retry block ran, and the `errno`
value left behind. -/
structure OpendirResult where
  result : Option WIN_DIR
  retried : Bool
  errnoOut : Nat
deriving Repr

/-- One conversion-plus-`FindFirstFileW` attempt of `win_opendir`:
given the last-error value before it, yields the native handle contents
(`none` for `INVALID_HANDLE_VALUE`) and the `GetLastError` value after
(unchanged when no native call was made or the call succeeded). -/
def opendir_attempt (env : OsEnv) (mode : EncodingMode) (pattern : List Nat)
    (i : Nat) (lastErr : Nat) : Option (FindData × List FindData) × Nat :=
  match c2w env mode pattern i with
  | none => (none, lastErr)
  | some wpath =>
    match env.findFirst wpath with
    | .ok res => (some res, lastErr)
    | .error e => (none, e)

/-- The handle and last-error value after `win_opendir`'s attempt 0 and
its conditional attempt-1 retry (`hFind == INVALID_HANDLE_VALUE &&
GetLastError() != ERROR_ACCESS_DENIED`). -/
def opendir_scan (env : OsEnv) (mode : EncodingMode) (pattern : List Nat)
    (lastErr0 : Nat) : Option (FindData × List FindData) × Nat :=
  let (h0, le0) := opendir_attempt env mode pattern 0 lastErr0
  if h0 = none ∧ le0 ≠ ERROR_ACCESS_DENIED then
    opendir_attempt env mode pattern 1 le0
  else (h0, le0)

/-- Whether the retry block of `win_opendir` runs. -/
def opendir_retries (env : OsEnv) (mode : EncodingMode) (pattern : List Nat)
    (lastErr0 : Nat) : Bool :=
  let (h0, le0) := opendir_attempt env mode pattern 0 lastErr0
  decide (h0 = none ∧ le0 ≠ ERROR_ACCESS_DENIED)

/-- `win_opendir(dir_path)`: appends `"\*"` to the path, converts with
attempt 0 and calls `FindFirstFileW`; retries with attempt 1 when the
handle is invalid and the last error is not access-denied; if the handle
is still invalid with last error access-denied, frees the iterator and
returns `NULL` with `errno = EACCES`; otherwise sets `errno` from the last
native error and returns the iterator, in the ended state (`-1`) when the
handle is invalid, else not started (`0`).  `lastErr0` is the
`GetLastError` value on entry (the code reads it even when no native call
was made). -/
def win_opendir (env : OsEnv) (mode : EncodingMode) (dir_path : List Nat)
    (lastErr0 : Nat) : OpendirResult :=
  let pattern := dir_path ++ [92, 42]   -- strcpy(path + len, "\\*")
  let (h1, le1) := opendir_scan env mode pattern lastErr0
  if h1 = none ∧ le1 = ERROR_ACCESS_DENIED then
    { result := none,
      retried := opendir_retries env mode pattern lastErr0,
      errnoOut := EACCES }
  else
    { result := some (match h1 with
        | some (first, rest) =>
          { findFileData := first, pending := rest, state := 0, d_name := none }
        | none =>
          { findFileData := zeroFindData, pending := [], state := -1,
            d_name := none }),
      retried := opendir_retries env mode pattern lastErr0,
      errnoOut := set_errno_from_last_file_error le1 }

/-- **C3.** When `win_opendir`'s attempt-0 conversion succeeds and the
native enumeration call fails with access-denied, the operation is a hard
failure: `NULL` result, `errno = EACCES`, and no attempt-1 retry; when the
attempt-0 native call fails with any other error, the retry with attempt 1
runs. -/
theorem win_opendir_access_denied_policy (env : OsEnv) (mode : EncodingMode)
    (dir_path : List Nat) (lastErr0 : Nat) (wpath : List Nat)
    (hc : c2w env mode (dir_path ++ [92, 42]) 0 = some wpath) :
    (env.findFirst wpath = .error ERROR_ACCESS_DENIED →
      (win_opendir env mode dir_path lastErr0).result = none ∧
      (win_opendir env mode dir_path lastErr0).errnoOut = EACCES ∧
      (win_opendir env mode dir_path lastErr0).retried = false) ∧
    (∀ e, env.findFirst wpath = .error e → e ≠ ERROR_ACCESS_DENIED →
      (win_opendir env mode dir_path lastErr0).retried = true) := by
  constructor
  · intro hf
    have hA : opendir_attempt env mode (dir_path ++ [92, 42]) 0 lastErr0 =
        (none, ERROR_ACCESS_DENIED) := by
      simp [opendir_attempt, hc, hf]
    have hR : opendir_retries env mode (dir_path ++ [92, 42]) lastErr0 = false := by
      simp [opendir_retries, hA]
    have hS : opendir_scan env mode (dir_path ++ [92, 42]) lastErr0 =
        (none, ERROR_ACCESS_DENIED) := by
      simp [opendir_scan, hA]
    refine ⟨?_, ?_, ?_⟩ <;>
      simp [win_opendir, hS, hR]
  · intro e hf he
    have hA : opendir_attempt env mode (dir_path ++ [92, 42]) 0 lastErr0 =
        (none, e) := by
      simp [opendir_attempt, hc, hf]
    have hR : opendir_retries env mode (dir_path ++ [92, 42]) lastErr0 = true := by
      simp [opendir_retries, hA, he]
    simp [win_opendir, hR, apply_ite OpendirResult.retried]

/-- Environment for the access-denied witness: the attempt-0 conversion
succeeds and the native enumeration reports `ERROR_ACCESS_DENIED`. -/
def deniedEnv : OsEnv where
  mb2wc := fun _ s => some s
  wc2mb := fun _ w => some (w, false)
  wfsopen := fun _ _ _ => .error 2
  wsopen := fun _ _ _ => none
  findFirst := fun _ => .error 5

theorem win_opendir_access_denied_policy_witness :
    (win_opendir deniedEnv .utf8 [100] 0).result = none ∧
    (win_opendir deniedEnv .utf8 [100] 0).errnoOut = EACCES ∧
    (win_opendir deniedEnv .utf8 [100] 0).retried = false :=
  (win_opendir_access_denied_policy deniedEnv .utf8 [100] 0
    [100, 92, 42] rfl).1 rfl

/-- Modelled from the spec: `WIN_DEFAULT_ENCODING` is declared in
`win_utils.h`, which is not among the sources here; the spec says directory
entry names are converted to narrow form in the active encoding, i.e. with
the "use default codepage" sentinel `-1` of `wchar_to_cstr`. -/
def WIN_DEFAULT_ENCODING : Int := -1

/-- The `'.'`/`".."` pseudo-entry test of `win_readdir`:
`cFileName[0] == L'.' && (cFileName[1] == 0 || (cFileName[1] == L'.' &&
cFileName[2] == 0))`; reading past the end of the (NUL-terminated) name
yields the terminator 0, modelled by `getD _ 0`. -/
def isPseudoName (l : List Nat) : Bool :=
  l.getD 0 0 == 46 &&
    (l.getD 1 0 == 0 || (l.getD 1 0 == 46 && l.getD 2 0 == 0))

/-- The per-record decision of the `win_readdir` loop body: skip (`none`)
when the record is the self/parent pseudo-entry, or when
`wchar_to_cstr(cFileName, WIN_DEFAULT_ENCODING, &failed)` returns `NULL`
or reports a failed conversion; otherwise produce the narrow name. -/
def examineRecord (env : OsEnv) (mode : EncodingMode) (cur : FindData) :
    Option (List Nat) :=
  if isPseudoName cur.cFileName then none
  else
    match wchar_to_cstr env mode cur.cFileName WIN_DEFAULT_ENCODING true with
    | (some filename, false) => some filename
    | _ => none

/-- The fetch-examine loop of `win_readdir`: `cur` is the record in
`findFileData`, `pending` the records `FindNextFileW` will still yield,
and `stInc` the `state` value after this iteration's `d->state++`.  On a
skip the next record is fetched (end of listing puts the iterator in the
ended state); on success the entry and the updated iterator are returned. -/
def win_readdir_go (env : OsEnv) (mode : EncodingMode) :
    FindData → List FindData → Int → Option win_dirent × WIN_DIR
  | cur, [], stInc =>
    match examineRecord env mode cur with
    | some filename =>
      (some ⟨filename, cur.cFileName,
         decide (cur.dwFileAttributes &&& FILE_ATTRIBUTE_DIRECTORY ≠ 0)⟩,
       ⟨cur, [], stInc, some filename⟩)
    | none => (none, ⟨cur, [], -1, none⟩)
  | cur, r :: rest, stInc =>
    match examineRecord env mode cur with
    | some filename =>
      (some ⟨filename, cur.cFileName,
         decide (cur.dwFileAttributes &&& FILE_ATTRIBUTE_DIRECTORY ≠ 0)⟩,
       ⟨cur, r :: rest, stInc, some filename⟩)
    | none => win_readdir_go env mode r rest (stInc + 1)

/-- `win_readdir(d)`: `NULL` immediately when the state is `-1`; otherwise
the previous entry's buffer is released and the loop runs — on the first
call (`state == 0`) starting from the buffered record, on later calls
(`state > 0`) fetching the next record first. -/
def win_readdir (env : OsEnv) (mode : EncodingMode) (d : WIN_DIR) :
    Option win_dirent × WIN_DIR :=
  if d.state = -1 then (none, d)
  else if d.state = 0 then
    win_readdir_go env mode d.findFileData d.pending 1
  else
    match d.pending with
    | [] => (none, ⟨d.findFileData, [], -1, none⟩)
    | r :: rest => win_readdir_go env mode r rest (d.state + 1)

theorem examineRecord_not_pseudo (env : OsEnv) (mode : EncodingMode)
    (cur : FindData) (filename : List Nat)
    (h : examineRecord env mode cur = some filename) :
    isPseudoName cur.cFileName = false := by
  unfold examineRecord at h
  by_cases hp : isPseudoName cur.cFileName
  · rw [if_pos hp] at h; cases h
  · simp only [Bool.not_eq_true] at hp; exact hp

theorem win_readdir_go_no_pseudo (env : OsEnv) (mode : EncodingMode) :
    ∀ (pending : List FindData) (cur : FindData) (stInc : Int)
      (e : win_dirent) (d' : WIN_DIR),
      win_readdir_go env mode cur pending stInc = (some e, d') →
      isPseudoName e.d_wname = false := by
  intro pending
  induction pending with
  | nil =>
    intro cur stInc e d' h
    unfold win_readdir_go at h
    match hx : examineRecord env mode cur with
    | some filename =>
      simp only [hx] at h
      injection h with h1 _
      injection h1 with h1
      subst h1
      exact examineRecord_not_pseudo env mode cur filename hx
    | none => simp [hx] at h
  | cons r rest ih =>
    intro cur stInc e d' h
    unfold win_readdir_go at h
    match hx : examineRecord env mode cur with
    | some filename =>
      simp only [hx] at h
      injection h with h1 _
      injection h1 with h1
      subst h1
      exact examineRecord_not_pseudo env mode cur filename hx
    | none =>
      simp only [hx] at h
      exact ih r (stInc + 1) e d' h

/-- **C7.** `win_readdir` never returns an entry whose (wide) name is `"."`
or `".."`: the pseudo-entries are always skipped. -/
theorem win_readdir_never_pseudo (env : OsEnv) (mode : EncodingMode)
    (d : WIN_DIR) (e : win_dirent) (d' : WIN_DIR)
    (h : win_readdir env mode d = (some e, d')) :
    e.d_wname ≠ [46] ∧ e.d_wname ≠ [46, 46] := by
  have hps : isPseudoName e.d_wname = false := by
    unfold win_readdir at h
    by_cases h1 : d.state = -1
    · rw [if_pos h1] at h; cases h
    · rw [if_neg h1] at h
      by_cases h2 : d.state = 0
      · rw [if_pos h2] at h
        exact win_readdir_go_no_pseudo env mode d.pending d.findFileData 1 e d' h
      · rw [if_neg h2] at h
        match hp : d.pending with
        | [] => rw [hp] at h; cases h
        | r :: rest =>
          rw [hp] at h
          exact win_readdir_go_no_pseudo env mode rest r (d.state + 1) e d' h
  constructor
  · intro hw; rw [hw] at hps; cases hps
  · intro hw; rw [hw] at hps; cases hps

theorem win_readdir_never_pseudo_witness :
    ([97] : List Nat) ≠ [46] ∧ ([97] : List Nat) ≠ [46, 46] :=
  win_readdir_never_pseudo idEnv .utf8 ⟨⟨[97], 0⟩, [], 0, none⟩
    ⟨[97], [97], false⟩ ⟨⟨[97], 0⟩, [], 1, some [97]⟩ (by decide)

/-- **C8.** The ended state is terminal: when the iterator's state is `-1`,
`win_readdir` returns `NULL` and leaves the iterator unchanged, so every
subsequent call returns `NULL` as well (`win_readdir` is the only operation
that mutates the iterator besides `win_closedir`). -/
theorem win_readdir_exhausted_terminal (env : OsEnv) (mode : EncodingMode)
    (d : WIN_DIR) (h : d.state = -1) :
    win_readdir env mode d = (none, d) := by
  simp [win_readdir, h]

theorem win_readdir_exhausted_terminal_witness :
    win_readdir idEnv .utf8 ⟨zeroFindData, [], -1, none⟩ =
      (none, ⟨zeroFindData, [], -1, none⟩) :=
  win_readdir_exhausted_terminal idEnv .utf8 ⟨zeroFindData, [], -1, none⟩ rfl

/-- Environment for the C10 counterexample: every narrow-to-wide
conversion fails, so `win_opendir` never reaches the native enumeration. -/
def noConvEnv : OsEnv where
  mb2wc := fun _ _ => none
  wc2mb := fun _ w => some (w, false)
  wfsopen := fun _ _ _ => .error 2
  wsopen := fun _ _ _ => none
  findFirst := fun _ => .error 2

/-- **C10 (counterexample).** When both codepage conversions of the path
fail, no native call is made — yet if the `GetLastError` value left by
earlier operations happens to be `ERROR_ACCESS_DENIED`, `win_opendir`
reads that stale value and returns `NULL` with `errno = EACCES` instead of
the claimed non-null `Exhausted` iterator. -/
theorem win_opendir_stale_denied_counterexample :
    noConvEnv.mb2wc (codepageForAttempt .utf8 0) [100, 92, 42] = none ∧
    noConvEnv.mb2wc (codepageForAttempt .utf8 1) [100, 92, 42] = none ∧
    (win_opendir noConvEnv .utf8 [100] ERROR_ACCESS_DENIED).result = none ∧
    (win_opendir noConvEnv .utf8 [100] ERROR_ACCESS_DENIED).errnoOut =
      EACCES := by
  refine ⟨rfl, rfl, by decide, by decide⟩

/-- **C10 (amended).** Whenever `win_opendir`'s attempts end with no valid
native handle and a last native error other than access-denied — which
covers a non-existent path (both native calls fail with a not-found error)
and the both-conversions-fail case provided the pre-existing last error is
not access-denied — `win_opendir` still returns a non-null iterator in the
ended (`Exhausted`) state with the portable error recorded from the last
native error, and `win_readdir` on that iterator immediately returns
`NULL`, indistinguishable from an empty directory; but when the standing
last error is access-denied it returns `NULL` with `errno = EACCES`. -/
theorem win_opendir_fail_yields_exhausted (env : OsEnv) (mode : EncodingMode)
    (dir_path : List Nat) (lastErr0 le : Nat)
    (hS : opendir_scan env mode (dir_path ++ [92, 42]) lastErr0 = (none, le))
    (hle : le ≠ ERROR_ACCESS_DENIED) :
    (win_opendir env mode dir_path lastErr0).result =
      some ⟨zeroFindData, [], -1, none⟩ ∧
    (win_opendir env mode dir_path lastErr0).errnoOut =
      convert_last_error_to_errno le ∧
    win_readdir env mode ⟨zeroFindData, [], -1, none⟩ =
      (none, ⟨zeroFindData, [], -1, none⟩) := by
  refine ⟨?_, ?_, by simp [win_readdir]⟩ <;>
    simp [win_opendir, hS, hle, set_errno_from_last_file_error]

theorem win_opendir_fail_yields_exhausted_witness :
    opendir_scan noConvEnv .utf8 ([100] ++ [92, 42]) 3 = (none, 3) ∧
    (3 : Nat) ≠ ERROR_ACCESS_DENIED ∧
    (win_opendir noConvEnv .utf8 [100] 3).result =
      some ⟨zeroFindData, [], -1, none⟩ := by
  have h := win_opendir_fail_yields_exhausted noConvEnv .utf8 [100] 3 3
    (by decide) (by decide)
  exact ⟨by decide, by decide, h.1⟩

end WinUtils
